import Mathlib

/-!
Shallow embedding of the Mastodonte_SpeedWeek building-code compliance
checker (IFC space measurement + rule evaluation) and proofs about it.

Conventions of the embedding:
* Python floats are modelled as real numbers (`ℝ`); `math.sqrt` is
  `Real.sqrt`.
* A `Space` models one `IfcSpace` as seen through the accessors the code
  uses: `Name` / `LongName` / `GlobalId` are `Option String` (Python
  `None` is `none`), `space.id()` is `idNum`, the optional
  `NetFloorArea` attribute is `Option ℝ` (`none` covers both a missing
  attribute and the attribute being `None`), and the triangulated shape
  produced by `ifcopenshell.geom.create_shape` is `Option Mesh`
  (`none` models `create_shape` raising, which every caller catches).
* Python string truthiness (`a or b` falls through on `""` and `None`)
  is modelled by `pyStr`.
* The f-string float formatting (`f"{x:.2f}"`) is modelled by an
  abstract formatting function `fmt : ℝ → String` passed to every
  function that renders numbers into strings; no proved property
  depends on the concrete rendering.
* Index errors inside the triangle loop of `calculate_space_area`
  abort the whole computation (the `except` clause returns `0.0`),
  which the embedding models by `Option`-valued partial sums.
-/

/-- Mesh as exposed by `shape.geometry`: a flat coordinate sequence
`verts` (x,y,z,x,y,z,...) and a flat triangle index sequence `faces`. -/
structure Mesh where
  verts : List ℝ
  faces : List ℕ

/-- One `IfcSpace` through the attributes the checkers access. -/
structure Space where
  name : Option String
  longName : Option String
  globalId : Option String
  idNum : ℕ
  netFloorArea : Option ℝ
  geom : Option Mesh

/-- IFCore result record produced by the `check_*` functions. -/
structure CheckResult where
  element_id : String
  element_type : String
  element_name : String
  element_name_long : String
  check_status : String
  actual_value : String
  required_value : String
  comment : Option String
  log : Option String
  deriving DecidableEq

/-- Python truthiness for an optional string: `none` and `""` are
falsy (used to model `a or b` fallback chains). -/
def pyStr : Option String → Option String
  | some s => if s = "" then none else some s
  | none => none

/-- Python `s.lower()` (ASCII case mapping, pointwise equal to
`String.toLower`), written over the character list so that it
evaluates by kernel reduction. -/
def pyLower (s : String) : String :=
  String.mk (s.data.map Char.toLower)

/-- Python `needle in hay` substring test. -/
def strContains (hay needle : String) : Bool :=
  decide (needle.data <:+: hay.data)

/-- Python `dict[k] = v` on an insertion-ordered dict modelled as an
association list: overwrite in place if the key exists, else append. -/
def upsert {α : Type} (l : List (String × α)) (k : String) (v : α) :
    List (String × α) :=
  if l.any (fun p => p.1 = k) then
    l.map (fun p => if p.1 = k then (k, v) else p)
  else l ++ [(k, v)]

namespace Geom

/-- Read vertex `idx` from the flat coordinate list: components
`verts[3*idx]`, `verts[3*idx+1]`, `verts[3*idx+2]`; any missing
component is the `IndexError` case. -/
def getVert (verts : List ℝ) (idx : ℕ) : Option (ℝ × ℝ × ℝ) :=
  match verts.get? (3 * idx), verts.get? (3 * idx + 1),
      verts.get? (3 * idx + 2) with
  | some x, some y, some z => some (x, y, z)
  | _, _, _ => none

/-- Group the flat `faces` list into consecutive index triples, as the
loop `for i in range(0, len(faces), 3)` reads them; a trailing
incomplete triple is the `IndexError` case. -/
def faceTriples : List ℕ → Option (List (ℕ × ℕ × ℕ))
  | [] => some []
  | i0 :: i1 :: i2 :: rest => (faceTriples rest).map (fun l => (i0, i1, i2) :: l)
  | _ => none

/-- Euclidean edge length between two vertices, as computed by
`math.sqrt((q[0]-p[0])**2 + (q[1]-p[1])**2 + (q[2]-p[2])**2)`
(identical to `math.dist`). -/
noncomputable def edgeLen (p q : ℝ × ℝ × ℝ) : ℝ :=
  Real.sqrt ((q.1 - p.1) ^ 2 + (q.2.1 - p.2.1) ^ 2 + (q.2.2 - p.2.2) ^ 2)

/-- Heron triangle area with the `max(..., 0.0)` clamp of the source. -/
noncomputable def triArea (v0 v1 v2 : ℝ × ℝ × ℝ) : ℝ :=
  let a := edgeLen v0 v1
  let b := edgeLen v1 v2
  let c := edgeLen v2 v0
  let s := (a + b + c) / 2
  Real.sqrt (max (s * (s - a) * (s - b) * (s - c)) 0)

/-- Heron triangle area as written in `toole._calculate_space_area`,
whose semiperimeter is written `s = (a + b) / 2.0 + c / 2.0`. -/
noncomputable def triAreaT (v0 v1 v2 : ℝ × ℝ × ℝ) : ℝ :=
  let a := edgeLen v0 v1
  let b := edgeLen v1 v2
  let c := edgeLen v2 v0
  let s := (a + b) / 2 + c / 2
  Real.sqrt (max (s * (s - a) * (s - b) * (s - c)) 0)

/-- Area of one indexed triangle; `none` when a vertex lookup raises. -/
noncomputable def triAreaIdx (verts : List ℝ) (t : ℕ × ℕ × ℕ) : Option ℝ :=
  match getVert verts t.1, getVert verts t.2.1, getVert verts t.2.2 with
  | some v0, some v1, some v2 => some (triArea v0 v1 v2)
  | _, _, _ => none

/-- Same with `toole`'s triangle-area expression. -/
noncomputable def triAreaIdxT (verts : List ℝ) (t : ℕ × ℕ × ℕ) : Option ℝ :=
  match getVert verts t.1, getVert verts t.2.1, getVert verts t.2.2 with
  | some v0, some v1, some v2 => some (triAreaT v0 v1 v2)
  | _, _, _ => none

/-- Accumulated triangle-area sum of the loop body; a failure on any
triangle discards everything (the exception escapes the loop). -/
noncomputable def triSum (verts : List ℝ) : List (ℕ × ℕ × ℕ) → Option ℝ
  | [] => some 0
  | t :: rest =>
    match triAreaIdx verts t, triSum verts rest with
    | some a, some s => some (a + s)
    | _, _ => none

/-- `toole` variant of `triSum`. -/
noncomputable def triSumT (verts : List ℝ) : List (ℕ × ℕ × ℕ) → Option ℝ
  | [] => some 0
  | t :: rest =>
    match triAreaIdxT verts t, triSumT verts rest with
    | some a, some s => some (a + s)
    | _, _ => none

/-- Mesh surface area: body of the `try` block of
`calculate_space_area`; any index failure falls to the `except`
branch, which returns `0.0`. -/
noncomputable def surface_area (m : Mesh) : ℝ :=
  match faceTriples m.faces with
  | none => 0
  | some tris =>
    match triSum m.verts tris with
    | none => 0
    | some a => a

/-- `toole` variant of `surface_area`. -/
noncomputable def surface_areaT (m : Mesh) : ℝ :=
  match faceTriples m.faces with
  | none => 0
  | some tris =>
    match triSumT m.verts tris with
    | none => 0
    | some a => a

/-- `verts[2::3]`: every third coordinate starting at index 2. -/
def zCoords : List ℝ → List ℝ
  | _ :: _ :: z :: rest => z :: zCoords rest
  | _ => []

/-- Body of the `try` block of `get_space_height`: `0.0` for an empty
vertex list, else `max(zs) - min(zs)`; `max`/`min` of an empty `zs`
raise, which the `except` turns into `0.0`. -/
noncomputable def clear_height (m : Mesh) : ℝ :=
  if m.verts = [] then 0
  else
    match zCoords m.verts with
    | [] => 0
    | z :: rest =>
      rest.foldl (fun x y => max x y) z - rest.foldl (fun x y => min x y) z

end Geom

namespace CheckerDwelling

/-- `tools/checker_dwelling.calculate_space_area`: triangle-sum area
with every failure (including `create_shape` raising) degrading to
`0.0`; this variant never consults `NetFloorArea`. -/
noncomputable def calculate_space_area (space : Space) : ℝ :=
  match space.geom with
  | none => 0
  | some m => Geom.surface_area m

/-- Fallback name used by `check_dwelling_area`:
`getattr(space, "LongName", None) or getattr(space, "Name", None) or
f"Space #{space.id()}"`. -/
def dwellingSpaceName (space : Space) : String :=
  match pyStr space.longName with
  | some v => v
  | none =>
    match pyStr space.name with
    | some v => v
    | none => "Space #" ++ toString space.idNum

/-- `getattr(space, "GlobalId", str(space.id()))`. -/
def spaceIdOf (space : Space) : String :=
  space.globalId.getD (toString space.idNum)

/-- `tools/checker_dwelling.check_dwelling_area`: one record per
space with placeholder status, then a retroactive rewrite of every
record's status/comment once the total area is known. -/
noncomputable def check_dwelling_area (fmt : ℝ → String) (model : List Space)
    (min_area : ℝ) : List CheckResult :=
  let results := model.map (fun space =>
    let area := calculate_space_area space
    let space_name := dwellingSpaceName space
    { element_id := spaceIdOf space
      element_type := "IfcSpace"
      element_name := space_name
      element_name_long := space_name ++ " (dwelling area check)"
      check_status := "pass"
      actual_value := fmt area ++ " m²"
      required_value := fmt min_area ++ " m²"
      comment := none
      log := none })
  let total_area := (model.map calculate_space_area).sum
  if results.length = 0 then results
  else
    let status := if total_area ≥ min_area then "pass" else "fail"
    results.map (fun r =>
      { r with
        check_status := status
        comment :=
          if status = "fail" then
            some ("Total dwelling area " ++ fmt total_area ++
              " m² is below required " ++ fmt min_area ++ " m²")
          else r.comment })

end CheckerDwelling

namespace CheckerHeights

/-- `tools/checker_heights.get_main_living_areas`: filters by
`s.Name and any(keyword in s.Name.lower() for keyword in
["living", "bedroom", "hall"])`; note this reads `Name` only — no
`LongName`/identifier fallback. -/
def get_main_living_areas (model : List Space) : List Space :=
  model.filter (fun s =>
    match pyStr s.name with
    | some nm =>
      ["living", "bedroom", "hall"].any (fun k => strContains (pyLower nm) k)
    | none => false)

/-- `tools/checker_heights.get_space_height`: Z bounding extent with
every failure degrading to `0.0`. -/
noncomputable def get_space_height (space : Space) : ℝ :=
  match space.geom with
  | none => 0
  | some m => Geom.clear_height m

end CheckerHeights

namespace CheckerLivingRooms

/-- `tools/checker_living_rooms.get_space_name` (also duplicated
verbatim in `tools/toolc.py`, `tools/checker_service_spaces.py` and
`toold.py`): truthy `LongName`, else truthy `Name`, else
`str(getattr(space, "GlobalId", "Unnamed"))`. -/
def get_space_name (space : Space) : String :=
  match pyStr space.longName with
  | some v => v
  | none =>
    match pyStr space.name with
    | some v => v
    | none => space.globalId.getD "Unnamed"

/-- `tools/checker_living_rooms.calculate_space_area` (duplicated in
`tools/toolc.py`): prefers a truthy `NetFloorArea` attribute (Python
float truthiness: `0.0` falls through), else the triangle-sum path. -/
noncomputable def calculate_space_area (space : Space) : ℝ :=
  match space.netFloorArea with
  | some v =>
    if v = 0 then
      match space.geom with
      | none => 0
      | some m => Geom.surface_area m
    else v
  | none =>
    match space.geom with
    | none => 0
    | some m => Geom.surface_area m

/-- `can_fit_square`: `float(area_m2) >= float(width) * float(depth)`. -/
noncomputable def can_fit_square (area_m2 : ℝ) (width depth : ℝ) : Bool :=
  decide (area_m2 ≥ width * depth)

/-- Clearance failure comment literal. -/
def clearanceMsg : String := "Does not allow 2.40 m x 2.40 m square (approx)"

/-- Area failure comment: `f"Area {area:.2f} m² < required {min_area:.2f} m²"`. -/
def areaMsg (fmt : ℝ → String) (area min_area : ℝ) : String :=
  "Area " ++ fmt area ++ " m² < required " ++ fmt min_area ++ " m²"

/-- The record built by the loop body of
`check_living_room_compliance` for an evaluated living space:
threshold 14 with `kitchen` in the lowered label else 10, clearance
via `can_fit_square(area, 2.4, 2.4)`, failure comment joining the
violated conditions with `"; "`. -/
noncomputable def livingRecord (fmt : ℝ → String) (space : Space) :
    CheckResult :=
  let raw_name := get_space_name space
  let name := pyLower raw_name
  let area := calculate_space_area space
  let space_id := space.globalId.getD (toString space.idNum)
  let has_kitchen := strContains name "kitchen"
  let min_area : ℝ := if has_kitchen then 14.0 else 10.0
  let clearance_ok := can_fit_square area 2.4 2.4
  let passed := decide (area ≥ min_area) && clearance_ok
  let reasons :=
    (if area < min_area then [areaMsg fmt area min_area] else []) ++
    (if clearance_ok then [] else [clearanceMsg])
  { element_id := space_id
    element_type := "IfcSpace"
    element_name := raw_name
    element_name_long := raw_name ++ " (living room zone)"
    check_status := if passed then "pass" else "fail"
    actual_value := fmt area ++ " m²"
    required_value := fmt min_area ++ " m²"
    comment :=
      if reasons = [] then none
      else some (String.intercalate "; " reasons)
    log := none }

/-- `tools/checker_living_rooms.check_living_room_compliance`: skips
non-positive-area spaces, evaluates spaces whose lowered label
contains `living`, emitting `livingRecord` for each. -/
noncomputable def check_living_room_compliance (fmt : ℝ → String)
    (model : List Space) : List CheckResult :=
  model.filterMap (fun space =>
    if calculate_space_area space ≤ 0 then none
    else if strContains (pyLower (get_space_name space)) "living" then
      some (livingRecord fmt space)
    else none)

end CheckerLivingRooms

/-- Per-space record of `tools/toolc.living_room_compliance`. -/
structure LRResult where
  space_name : String
  area_m2 : ℝ
  min_required_m2 : ℝ
  clearance_ok : Bool
  result : String
  reason : String

namespace Toolc

/-- The record built by the loop body of `living_room_compliance`:
same rule as `livingRecord` with the toolc record shape (the pass
reason is the literal `"Complies"`). -/
noncomputable def livingResult (fmt : ℝ → String) (space : Space) : LRResult :=
  let raw_name := CheckerLivingRooms.get_space_name space
  let name := pyLower raw_name
  let area := CheckerLivingRooms.calculate_space_area space
  let has_kitchen := strContains name "kitchen"
  let min_area : ℝ := if has_kitchen then 14.0 else 10.0
  let clearance_ok := CheckerLivingRooms.can_fit_square area 2.4 2.4
  let passed := decide (area ≥ min_area) && clearance_ok
  let reasons :=
    (if area < min_area then [CheckerLivingRooms.areaMsg fmt area min_area]
     else []) ++
    (if clearance_ok then [] else [CheckerLivingRooms.clearanceMsg])
  { space_name := raw_name
    area_m2 := area
    min_required_m2 := min_area
    clearance_ok := clearance_ok
    result := if passed then "pass" else "fail"
    reason :=
      if reasons = [] then "Complies"
      else String.intercalate "; " reasons }

/-- `tools/toolc.living_room_compliance`: same selection and rule as
`check_living_room_compliance` (whose helpers `get_space_name`,
`calculate_space_area` and `can_fit_square` are duplicated verbatim
in `toolc.py`), but a different record shape: on pass the reason is
the literal `"Complies"`. -/
noncomputable def living_room_compliance (fmt : ℝ → String)
    (model : List Space) : List LRResult :=
  model.filterMap (fun space =>
    if CheckerLivingRooms.calculate_space_area space ≤ 0 then none
    else if strContains (pyLower (CheckerLivingRooms.get_space_name space))
        "living" then
      some (livingResult fmt space)
    else none)

end Toolc

namespace CheckerOccupancy

/-- `tools/checker_occupancy.calculate_space_area`: triangle-sum only
(`math.dist` equals the explicit distance formula); no `NetFloorArea`
preference. -/
noncomputable def calculate_space_area (space : Space) : ℝ :=
  match space.geom with
  | none => 0
  | some m => Geom.surface_area m

/-- `tools/checker_occupancy.get_space_label`:
`str(getattr(space, "LongName", None) or getattr(space, "Name", None)
or f"Space #{space.id()}")`. -/
def get_space_label (space : Space) : String :=
  match pyStr space.longName with
  | some v => v
  | none =>
    match pyStr space.name with
    | some v => v
    | none => "Space #" ++ toString space.idNum

/-- `tools/checker_occupancy.area_to_occupancy`: the step function of
the occupancy regulation. -/
noncomputable def area_to_occupancy (area_m2 : ℝ) : ℕ :=
  if area_m2 < 5.0 then 0
  else if area_m2 < 8.0 then 1
  else if area_m2 < 12.0 then 2
  else 3

def bedroom_keywords : List String := ["bedroom", "habitacion", "habitación", "dormitorio"]

def living_keywords : List String := ["living", "salon", "salón", "studio", "estudio", "common"]

/-- `tools/checker_occupancy.get_spaces_by_keywords`: keep spaces
whose lowered label contains any keyword. -/
def get_spaces_by_keywords (model : List Space) (keywords : List String) :
    List Space :=
  model.filter (fun s =>
    keywords.any (fun k => strContains (pyLower (get_space_label s)) k))

/-- `tools/checker_occupancy.check_bedroom_occupancy`: studio branch
when no bedroom-keyword space exists (first living/studio space,
occupancy capped at 2, pass iff capped occupancy positive; empty
result when no living/studio space either), else one independent
record per bedroom. -/
noncomputable def check_bedroom_occupancy (fmt : ℝ → String)
    (model : List Space) : List CheckResult :=
  let bedrooms := get_spaces_by_keywords model bedroom_keywords
  let living_spaces := get_spaces_by_keywords model living_keywords
  if bedrooms.length = 0 then
    match living_spaces with
    | [] => []
    | space :: _ =>
      let label := get_space_label space
      let area := calculate_space_area space
      let space_id := space.globalId.getD (toString space.idNum)
      let occupancy := min (area_to_occupancy area) 2
      let passed := decide (occupancy > 0)
      [{ element_id := space_id
         element_type := "IfcSpace"
         element_name := label
         element_name_long := label ++ " (studio dwelling)"
         check_status := if passed then "pass" else "fail"
         actual_value := fmt area ++ " m² → " ++ toString occupancy ++ " occupant(s) max"
         required_value := "Studio max 2 occupants"
         comment :=
           if passed then some "Studio dwelling limited to maximum 2 occupants"
           else some ("Area " ++ fmt area ++ " m² too small for studio")
         log := none }]
  else
    bedrooms.map (fun space =>
      let label := get_space_label space
      let area := calculate_space_area space
      let space_id := space.globalId.getD (toString space.idNum)
      let occupancy := area_to_occupancy area
      let passed := decide (occupancy > 0)
      { element_id := space_id
        element_type := "IfcSpace"
        element_name := label
        element_name_long := label ++ " (bedroom occupancy)"
        check_status := if passed then "pass" else "fail"
        actual_value := fmt area ++ " m² → " ++ toString occupancy ++ " occupant(s)"
        required_value := "≥5 m² (min 1 occupant)"
        comment :=
          if passed then none
          else some ("Area " ++ fmt area ++ " m² below minimum 5 m² for bedroom")
        log := none })

end CheckerOccupancy

/-- Summary record returned by `tools/toole.bedroom_occupancy_check`. -/
structure OccReport where
  result : String
  reason : String
  room_areas : List (String × ℝ)
  occupancy : List (String × ℕ)
  total_allowed_people : ℕ

namespace Toole

/-- `tools/toole._calculate_space_area`: triangle-sum only, with the
`s = (a + b) / 2.0 + c / 2.0` semiperimeter spelling; no
`NetFloorArea` preference. -/
noncomputable def _calculate_space_area (space : Space) : ℝ :=
  match space.geom with
  | none => 0
  | some m => Geom.surface_areaT m

/-- `tools/toole._space_label`: truthy `LongName`, else truthy
`Name`, else the literal `"Unnamed"`. -/
def _space_label (space : Space) : String :=
  match pyStr space.longName with
  | some v => v
  | none =>
    match pyStr space.name with
    | some v => v
    | none => "Unnamed"

/-- `tools/toole._matches_any_keyword` composed with
`_get_spaces_by_keywords`. -/
def _get_spaces_by_keywords (model : List Space) (keywords : List String) :
    List Space :=
  model.filter (fun s =>
    keywords.any (fun k => strContains (pyLower (_space_label s)) k))

/-- `tools/toole._area_to_occupancy`: identical step function to
`checker_occupancy.area_to_occupancy`. -/
noncomputable def _area_to_occupancy (area : ℝ) : ℕ :=
  if area < 5.0 then 0
  else if area < 8.0 then 1
  else if area < 12.0 then 2
  else 3

/-- The bedroom loop of `bedroom_occupancy_check`: accumulates
per-room areas and occupancies, short-circuits with a `fail` report
on the first bedroom whose occupancy is zero. -/
noncomputable def bedroomLoop (fmt : ℝ → String) :
    List Space → List (String × ℝ) → List (String × ℕ) → ℕ → OccReport
  | [], room_areas, occupancy, total_people =>
    { result := "pass"
      reason := "Bedroom areas satisfy occupancy requirements"
      room_areas := room_areas
      occupancy := occupancy
      total_allowed_people := total_people }
  | space :: rest, room_areas, occupancy, total_people =>
    let label := _space_label space
    let area := _calculate_space_area space
    let allowed := _area_to_occupancy area
    if allowed = 0 then
      { result := "fail"
        reason := label ++ " area " ++ fmt area ++ " m² is below minimum 5 m²"
        room_areas := room_areas
        occupancy := occupancy
        total_allowed_people := total_people }
    else
      bedroomLoop fmt rest (upsert room_areas label area)
        (upsert occupancy label allowed) (total_people + allowed)

/-- `tools/toole.bedroom_occupancy_check`: studio branch (explicit
failure `"No habitable space identified"` with no habitable space;
otherwise an unconditional `"pass"` on the first living/studio space
with occupancy capped at 2), else the short-circuiting bedroom loop. -/
noncomputable def bedroom_occupancy_check (fmt : ℝ → String)
    (model : List Space) : OccReport :=
  let bedrooms := _get_spaces_by_keywords model CheckerOccupancy.bedroom_keywords
  let living_spaces := _get_spaces_by_keywords model CheckerOccupancy.living_keywords
  if bedrooms.length = 0 then
    match living_spaces with
    | [] =>
      { result := "fail"
        reason := "No habitable space identified"
        room_areas := []
        occupancy := []
        total_allowed_people := 0 }
    | main_space :: _ =>
      let label := _space_label main_space
      let area := _calculate_space_area main_space
      let allowed := min (_area_to_occupancy area) 2
      { result := "pass"
        reason := "Studio dwelling limited to maximum 2 occupants"
        room_areas := [(label, area)]
        occupancy := [(label, allowed)]
        total_allowed_people := allowed }
  else bedroomLoop fmt bedrooms [] [] 0

end Toole

namespace CheckerServiceSpaces

/-- `tools/checker_service_spaces.get_space_name`: identical fallback
chain to `checker_living_rooms.get_space_name`. -/
def get_space_name (space : Space) : String :=
  CheckerLivingRooms.get_space_name space

/-- `tools/checker_service_spaces.get_space_height`: identical to
`checker_heights.get_space_height`. -/
noncomputable def get_space_height (space : Space) : ℝ :=
  match space.geom with
  | none => 0
  | some m => Geom.clear_height m

def service_keywords : List String :=
  ["bath", "bathroom", "baño", "bano", "wc", "toilet",
   "kitchen", "cocina",
   "hall", "hallway", "corridor", "pasillo"]

/-- `tools/checker_service_spaces.is_service_space`: any service
keyword occurs in the lowered name. -/
def is_service_space (space_name_lower : String) : Bool :=
  service_keywords.any (fun k => strContains space_name_lower k)

/-- `tools/checker_service_spaces.check_service_spaces_min_height`:
independent per-space records for service-keyword spaces; zero
matches produce an empty list. -/
noncomputable def check_service_spaces_min_height (fmt : ℝ → String)
    (model : List Space) (min_height : ℝ) : List CheckResult :=
  model.filterMap (fun space =>
    let label := get_space_name space
    if is_service_space (pyLower label) then
      let height := get_space_height space
      let space_id := space.globalId.getD (toString space.idNum)
      some
        { element_id := space_id
          element_type := "IfcSpace"
          element_name := label
          element_name_long := label ++ " (service space)"
          check_status := if height ≥ min_height then "pass" else "fail"
          actual_value := fmt height ++ " m"
          required_value := fmt min_height ++ " m"
          comment :=
            if height ≥ min_height then none
            else some ("Height " ++ fmt height ++ "m below required " ++
              fmt min_height ++ "m")
          log := none }
    else none)

end CheckerServiceSpaces

/-- Summary record returned by `toold.service_spaces_min_height_check`. -/
structure HeightReport where
  result : String
  reason : String
  room_heights : List (String × ℝ)
  checked_spaces : List String

namespace Toold

/-- The loop of `toold.service_spaces_min_height_check` followed by
its epilogue: the loop skips non-service spaces, records each checked
label and its height, and short-circuits with a `fail` report on the
first too-low service space; the epilogue reports the
no-matches failure or the final pass. -/
noncomputable def serviceLoop (fmt : ℝ → String) (min_height : ℝ) :
    List Space → List (String × ℝ) → List String → HeightReport
  | [], room_heights, checked_spaces =>
    if checked_spaces = [] then
      { result := "fail"
        reason := "No bathrooms/kitchens/hallways matched by keywords, nothing checked"
        room_heights := room_heights
        checked_spaces := checked_spaces }
    else
      { result := "pass"
        reason := "All checked bathrooms/kitchens/hallways meet minimum height " ++
          fmt min_height ++ "m"
        room_heights := room_heights
        checked_spaces := checked_spaces }
  | space :: rest, room_heights, checked_spaces =>
    let label := CheckerServiceSpaces.get_space_name space
    if CheckerServiceSpaces.is_service_space (pyLower label) then
      let checked2 := checked_spaces ++ [label]
      let h := CheckerServiceSpaces.get_space_height space
      let rh2 := upsert room_heights label h
      if h < min_height then
        { result := "fail"
          reason := label ++ " height below " ++ fmt min_height ++ "m"
          room_heights := rh2
          checked_spaces := checked2 }
      else serviceLoop fmt min_height rest rh2 checked2
    else serviceLoop fmt min_height rest room_heights checked_spaces

/-- `toold.service_spaces_min_height_check` (its helper functions
`get_space_name`, `get_space_height` and `is_service_space` are
verbatim duplicates of the `checker_service_spaces` ones). -/
noncomputable def service_spaces_min_height_check (fmt : ℝ → String)
    (model : List Space) (min_height : ℝ) : HeightReport :=
  serviceLoop fmt min_height model [] []

end Toold

namespace Geom

theorem triArea_nonneg (v0 v1 v2 : ℝ × ℝ × ℝ) : 0 ≤ triArea v0 v1 v2 :=
  Real.sqrt_nonneg _

theorem triSum_nonneg (verts : List ℝ) :
    ∀ (tris : List (ℕ × ℕ × ℕ)) (a : ℝ), triSum verts tris = some a → 0 ≤ a := by
  intro tris
  induction tris with
  | nil =>
    intro a h
    simp [triSum] at h
    exact le_of_eq h
  | cons t rest ih =>
    intro a h
    simp only [triSum] at h
    cases hx : triAreaIdx verts t with
    | none => rw [hx] at h; exact absurd h (by simp)
    | some x =>
      cases hs : triSum verts rest with
      | none => rw [hx, hs] at h; exact absurd h (by simp)
      | some s =>
        rw [hx, hs] at h
        simp only [Option.some.injEq] at h
        have hx0 : 0 ≤ x := by
          unfold triAreaIdx at hx
          rcases h0 : getVert verts t.1 with _ | v0 <;> rw [h0] at hx <;>
            rcases h1 : getVert verts t.2.1 with _ | v1 <;> rw [h1] at hx <;>
              rcases h2 : getVert verts t.2.2 with _ | v2 <;> rw [h2] at hx <;>
                simp at hx
          rw [← hx]
          exact triArea_nonneg v0 v1 v2
        have hs0 : 0 ≤ s := ih s hs
        rw [← h]
        positivity

end Geom

namespace Geom

theorem triSum_perm (verts : List ℝ) {t1 t2 : List (ℕ × ℕ × ℕ)}
    (h : t1.Perm t2) : triSum verts t1 = triSum verts t2 := by
  induction h with
  | nil => rfl
  | cons x _ ih => simp only [triSum, ih]
  | swap x y l =>
    simp only [triSum]
    cases triAreaIdx verts y <;> cases triAreaIdx verts x <;>
      cases triSum verts l <;> simp
    ring
  | trans _ _ ih1 ih2 => rw [ih1, ih2]

theorem surface_area_nonneg (m : Mesh) : 0 ≤ surface_area m := by
  unfold surface_area
  cases hf : faceTriples m.faces with
  | none => simp
  | some tris =>
    cases hs : triSum m.verts tris with
    | none => simp [hs]
    | some a =>
      simp only [hs]
      exact triSum_nonneg m.verts tris a hs

theorem surface_area_perm (verts : List ℝ) (faces1 faces2 : List ℕ)
    (t1 t2 : List (ℕ × ℕ × ℕ)) (h1 : faceTriples faces1 = some t1)
    (h2 : faceTriples faces2 = some t2) (hp : t1.Perm t2) :
    surface_area ⟨verts, faces1⟩ = surface_area ⟨verts, faces2⟩ := by
  unfold surface_area
  simp only [h1, h2]
  rw [triSum_perm verts hp]

end Geom

/-- Example space carrying a well-formed empty mesh (zero triangles,
zero vertices). -/
def spEmptyMesh : Space :=
  { name := none, longName := none, globalId := some "G1", idNum := 1,
    netFloorArea := none, geom := some { verts := [], faces := [] } }

/-- Example space whose geometry extraction fails
(`create_shape` raises). -/
def spNoGeom : Space :=
  { name := some "Office", longName := none, globalId := some "G2", idNum := 2,
    netFloorArea := none, geom := none }

/-- C9: the mesh surface-area function is non-negative and invariant
under any permutation of the triangle index-triple sequence; a mesh
with zero triangles yields area 0.0 and a mesh with zero vertices
yields height 0.0. -/
theorem C9_surface_area_invariants :
    (∀ m : Mesh, 0 ≤ Geom.surface_area m)
    ∧ (∀ (verts : List ℝ) (faces1 faces2 : List ℕ)
        (t1 t2 : List (ℕ × ℕ × ℕ)),
        Geom.faceTriples faces1 = some t1 →
        Geom.faceTriples faces2 = some t2 →
        t1.Perm t2 →
        Geom.surface_area { verts := verts, faces := faces1 } =
          Geom.surface_area { verts := verts, faces := faces2 })
    ∧ (∀ verts : List ℝ, Geom.surface_area { verts := verts, faces := [] } = 0)
    ∧ (∀ (s : Space) (m : Mesh), s.geom = some m → m.verts = [] →
        CheckerHeights.get_space_height s = 0) := by
  refine ⟨Geom.surface_area_nonneg, Geom.surface_area_perm, ?_, ?_⟩
  · intro verts
    simp [Geom.surface_area, Geom.faceTriples, Geom.triSum]
  · intro s m hg hv
    simp [CheckerHeights.get_space_height, hg, Geom.clear_height, hv]

/-- C9 witness: two concrete meshes whose triangle sequences are
permutations of each other have equal surface area, and a concrete
zero-vertex mesh yields height 0. -/
theorem C9_witness :
    (Geom.faceTriples [0, 1, 2, 3, 4, 5] =
        some [((0 : ℕ), (1 : ℕ), (2 : ℕ)), (3, 4, 5)]
      ∧ Geom.faceTriples [3, 4, 5, 0, 1, 2] =
        some [((3 : ℕ), (4 : ℕ), (5 : ℕ)), (0, 1, 2)]
      ∧ List.Perm [((0 : ℕ), (1 : ℕ), (2 : ℕ)), (3, 4, 5)]
          [(3, 4, 5), (0, 1, 2)]
      ∧ Geom.surface_area { verts := [], faces := [0, 1, 2, 3, 4, 5] } =
          Geom.surface_area { verts := [], faces := [3, 4, 5, 0, 1, 2] })
    ∧ (spEmptyMesh.geom = some { verts := [], faces := [] }
      ∧ CheckerHeights.get_space_height spEmptyMesh = 0) := by
  refine ⟨⟨by decide, by decide, by decide, ?_⟩, rfl, ?_⟩
  · exact C9_surface_area_invariants.2.1 [] [0, 1, 2, 3, 4, 5]
      [3, 4, 5, 0, 1, 2] [((0 : ℕ), (1 : ℕ), (2 : ℕ)), (3, 4, 5)]
      [((3 : ℕ), (4 : ℕ), (5 : ℕ)), (0, 1, 2)]
      (by decide) (by decide) (by decide)
  · exact C9_surface_area_invariants.2.2.2 spEmptyMesh _ rfl rfl

/-- C2: an absent/failed geometry, an empty triangle list, or an empty
vertex list all degrade to zero-valued measurements instead of
errors, and the dwelling rule still emits a record for every space of
the model (evaluation continues over all spaces). -/
theorem C2_zero_measurement_degradation :
    (∀ s : Space,
      (s.geom = none →
        CheckerDwelling.calculate_space_area s = 0
        ∧ CheckerOccupancy.calculate_space_area s = 0
        ∧ CheckerHeights.get_space_height s = 0)
      ∧ (∀ m : Mesh, s.geom = some m → m.faces = [] →
          CheckerDwelling.calculate_space_area s = 0)
      ∧ (∀ m : Mesh, s.geom = some m → m.verts = [] →
          CheckerHeights.get_space_height s = 0))
    ∧ (∀ (fmt : ℝ → String) (model : List Space) (min_area : ℝ),
        (CheckerDwelling.check_dwelling_area fmt model min_area).length =
          model.length) := by
  constructor
  · intro s
    refine ⟨?_, ?_, ?_⟩
    · intro hg
      simp [CheckerDwelling.calculate_space_area,
        CheckerOccupancy.calculate_space_area,
        CheckerHeights.get_space_height, hg]
    · intro m hg hf
      simp [CheckerDwelling.calculate_space_area, hg, Geom.surface_area, hf,
        Geom.faceTriples, Geom.triSum]
    · intro m hg hv
      simp [CheckerHeights.get_space_height, hg, Geom.clear_height, hv]
  · intro fmt model min_area
    simp only [CheckerDwelling.check_dwelling_area]
    split <;> simp

/-- C2 witness: a space with failed geometry and a space with an empty
mesh both measure to zero area and height. -/
theorem C2_witness :
    CheckerDwelling.calculate_space_area spNoGeom = 0
    ∧ CheckerHeights.get_space_height spNoGeom = 0
    ∧ CheckerDwelling.calculate_space_area spEmptyMesh = 0
    ∧ (CheckerDwelling.check_dwelling_area (fun _ => "") [spNoGeom] 36).length = 1 := by
  refine ⟨((C2_zero_measurement_degradation.1 spNoGeom).1 rfl).1,
    ((C2_zero_measurement_degradation.1 spNoGeom).1 rfl).2.2,
    (C2_zero_measurement_degradation.1 spEmptyMesh).2.1 _ rfl rfl,
    C2_zero_measurement_degradation.2 (fun _ => "") [spNoGeom] 36⟩

/-- C6: the occupancy-per-area mapping is exactly the step function
`<5.0 → 0`, `[5.0,8.0) → 1`, `[8.0,12.0) → 2`, `≥12.0 → 3` for every
real area, identically in both implementations. -/
theorem C6_occupancy_step_function :
    ∀ a : ℝ,
      (a < 5.0 → CheckerOccupancy.area_to_occupancy a = 0)
      ∧ (5.0 ≤ a → a < 8.0 → CheckerOccupancy.area_to_occupancy a = 1)
      ∧ (8.0 ≤ a → a < 12.0 → CheckerOccupancy.area_to_occupancy a = 2)
      ∧ (12.0 ≤ a → CheckerOccupancy.area_to_occupancy a = 3)
      ∧ Toole._area_to_occupancy a = CheckerOccupancy.area_to_occupancy a := by
  intro a
  refine ⟨fun h => ?_, fun h1 h2 => ?_, fun h1 h2 => ?_, fun h => ?_, rfl⟩
  · simp [CheckerOccupancy.area_to_occupancy, h]
  · simp [CheckerOccupancy.area_to_occupancy, h2, not_lt.mpr h1]
  · have h5 : ¬ a < 5.0 := by norm_num at h1 ⊢; linarith
    simp [CheckerOccupancy.area_to_occupancy, h5, not_lt.mpr h1, h2]
  · have h5 : ¬ a < 5.0 := by norm_num at h ⊢; linarith
    have h8 : ¬ a < 8.0 := by norm_num at h ⊢; linarith
    have h12 : ¬ a < 12.0 := by norm_num at h ⊢; linarith
    simp [CheckerOccupancy.area_to_occupancy, h5, h8, h12]

/-- C6 witness: a 6 m² area falls in the `[5,8)` band and maps to 1
occupant in both implementations. -/
theorem C6_witness :
    ((5.0 : ℝ) ≤ 6 ∧ (6 : ℝ) < 8.0)
    ∧ CheckerOccupancy.area_to_occupancy 6 = 1
    ∧ Toole._area_to_occupancy 6 = CheckerOccupancy.area_to_occupancy 6 :=
  ⟨⟨by norm_num, by norm_num⟩,
   (C6_occupancy_step_function 6).2.1 (by norm_num) (by norm_num),
   (C6_occupancy_step_function 6).2.2.2.2⟩

/-- Example space carrying `NetFloorArea = 50` alongside an empty mesh. -/
def spNetArea50 : Space :=
  { name := some "Room", longName := none, globalId := some "G3", idNum := 3,
    netFloorArea := some 50, geom := some { verts := [], faces := [] } }

/-- C1 counterexample: a space carrying the authoritative value 50 is
measured as 0 by the dwelling rule's area function, which runs the
triangle-summation path over the mesh and ignores `NetFloorArea`. -/
theorem C1_counterexample :
    spNetArea50.netFloorArea = some 50
    ∧ CheckerDwelling.calculate_space_area spNetArea50 = 0
    ∧ (0 : ℝ) ≠ 50 := by
  refine ⟨rfl, ?_, by norm_num⟩
  simp [CheckerDwelling.calculate_space_area, spNetArea50, Geom.surface_area,
    Geom.faceTriples, Geom.triSum]

/-- C1 amended: only the living-room family's area function prefers a
(non-zero) authoritative `NetFloorArea`, returning it directly without
consulting the mesh; the dwelling and occupancy area functions are
insensitive to `NetFloorArea` and always run the triangle-summation
path. -/
theorem C1_authoritative_area_preference :
    (∀ (s : Space) (v : ℝ), s.netFloorArea = some v → v ≠ 0 →
      CheckerLivingRooms.calculate_space_area s = v)
    ∧ (∀ (s : Space) (o : Option ℝ),
      CheckerDwelling.calculate_space_area { s with netFloorArea := o } =
        CheckerDwelling.calculate_space_area s
      ∧ CheckerOccupancy.calculate_space_area { s with netFloorArea := o } =
        CheckerOccupancy.calculate_space_area s) := by
  constructor
  · intro s v hv hnz
    simp [CheckerLivingRooms.calculate_space_area, hv, hnz]
  · intro s o
    exact ⟨rfl, rfl⟩

/-- C1 witness: for the concrete space carrying the value 50, the
living-room area function returns 50 even though the mesh is empty,
and the dwelling area function is unchanged by dropping the value. -/
theorem C1_witness :
    spNetArea50.netFloorArea = some 50
    ∧ (50 : ℝ) ≠ 0
    ∧ CheckerLivingRooms.calculate_space_area spNetArea50 = 50
    ∧ CheckerDwelling.calculate_space_area
        { spNetArea50 with netFloorArea := none } =
      CheckerDwelling.calculate_space_area spNetArea50 :=
  ⟨rfl, by norm_num,
   C1_authoritative_area_preference.1 spNetArea50 50 rfl (by norm_num),
   (C1_authoritative_area_preference.2 spNetArea50 none).1⟩

theorem pyStr_some_ne_empty {o : Option String} {v : String}
    (h : pyStr o = some v) : v ≠ "" := by
  cases o with
  | none => simp [pyStr] at h
  | some s =>
    by_cases hs : s = ""
    · simp [pyStr, hs] at h
    · simp [pyStr, hs] at h
      subst h
      exact hs

/-- Example space whose long-form name matches the living keyword but
whose short name is absent. -/
def spLongOnly : Space :=
  { name := none, longName := some "Living Room", globalId := some "G4",
    idNum := 4, netFloorArea := none, geom := none }

/-- Example space with falsy names and an empty `GlobalId` string. -/
def spEmptyGid : Space :=
  { name := none, longName := none, globalId := some "", idNum := 9,
    netFloorArea := none, geom := none }

/-- C8 counterexample: a space whose fallback-resolved label is
"Living Room" (which matches the `living` keyword) is nevertheless
not selected by the living/bedroom/hall height rule, because that
rule reads the short `Name` attribute only; moreover the
living-room/service label function yields the empty string for a
space with falsy names and `GlobalId = ""`, so the fallback-resolved
label is not non-empty for every space either. -/
theorem C8_counterexample :
    strContains (pyLower (CheckerOccupancy.get_space_label spLongOnly))
      "living" = true
    ∧ CheckerHeights.get_main_living_areas [spLongOnly] = []
    ∧ CheckerLivingRooms.get_space_name spEmptyGid = "" := by
  exact ⟨by decide, rfl, by decide⟩

/-- C8 amended: every label function runs the fallback chain
long-form name → short name → identifier. The occupancy and dwelling
families end the chain in `"Space #<id>"`, so their label is
non-empty for every space; the toole family ends in `"Unnamed"` and
is likewise non-empty; the living-room/service families end in the
`GlobalId` string (or `"Unnamed"` when the attribute is absent): with
both names falsy their label equals that final fallback, and an
empty label can only arise from an empty `GlobalId`.
The living/bedroom/hall height rule does not use the fallback label
at all: it classifies on the short `Name` alone and never selects a
space whose `Name` is missing or empty, even when its
fallback-resolved label matches a keyword. -/
theorem C8_label_fallback :
    (∀ s : Space, CheckerOccupancy.get_space_label s ≠ ""
      ∧ CheckerDwelling.dwellingSpaceName s = CheckerOccupancy.get_space_label s
      ∧ Toole._space_label s ≠ "")
    ∧ (∀ s : Space,
        (∀ v, pyStr s.longName = some v →
          CheckerOccupancy.get_space_label s = v
          ∧ CheckerLivingRooms.get_space_name s = v)
        ∧ (pyStr s.longName = none → ∀ v, pyStr s.name = some v →
            CheckerOccupancy.get_space_label s = v
            ∧ CheckerLivingRooms.get_space_name s = v)
        ∧ (pyStr s.longName = none → pyStr s.name = none →
            CheckerOccupancy.get_space_label s =
              "Space #" ++ toString s.idNum
            ∧ CheckerLivingRooms.get_space_name s =
              s.globalId.getD "Unnamed"))
    ∧ (∀ s : Space, CheckerLivingRooms.get_space_name s = "" →
        s.globalId = some "")
    ∧ (∀ (model : List Space) (s : Space),
        s ∈ CheckerHeights.get_main_living_areas model →
        pyStr s.name ≠ none) := by
  refine ⟨?_, ?_, ?_, ?_⟩
  · intro s
    refine ⟨?_, rfl, ?_⟩
    · unfold CheckerOccupancy.get_space_label
      cases hl : pyStr s.longName with
      | some v => exact pyStr_some_ne_empty hl
      | none =>
        cases hn : pyStr s.name with
        | some v => exact pyStr_some_ne_empty hn
        | none =>
          intro hEq
          have hlen := congrArg String.length hEq
          simp [String.length_append] at hlen
          exact absurd hlen.1 (by decide)
    · unfold Toole._space_label
      cases hl : pyStr s.longName with
      | some v => exact pyStr_some_ne_empty hl
      | none =>
        cases hn : pyStr s.name with
        | some v => exact pyStr_some_ne_empty hn
        | none => decide
  · intro s
    refine ⟨?_, ?_, ?_⟩
    · intro v hv
      exact ⟨by simp [CheckerOccupancy.get_space_label, hv],
        by simp [CheckerLivingRooms.get_space_name, hv]⟩
    · intro hl v hv
      exact ⟨by simp [CheckerOccupancy.get_space_label, hl, hv],
        by simp [CheckerLivingRooms.get_space_name, hl, hv]⟩
    · intro hl hn
      exact ⟨by simp [CheckerOccupancy.get_space_label, hl, hn],
        by simp [CheckerLivingRooms.get_space_name, hl, hn]⟩
  · intro s h
    unfold CheckerLivingRooms.get_space_name at h
    cases hl : pyStr s.longName with
    | some v =>
      simp only [hl] at h
      exact absurd h (pyStr_some_ne_empty hl)
    | none =>
      simp only [hl] at h
      cases hn : pyStr s.name with
      | some v =>
        simp only [hn] at h
        exact absurd h (pyStr_some_ne_empty hn)
      | none =>
        simp only [hn] at h
        cases hg : s.globalId with
        | none =>
          simp only [hg, Option.getD_none] at h
          exact absurd h (by decide)
        | some g =>
          simp only [hg, Option.getD_some] at h
          rw [h]
  · intro model s hs hnone
    have hmem := List.mem_filter.mp hs
    rw [hnone] at hmem
    simp at hmem

/-- Example space with a short name matching the living keyword. -/
def spNamedLiving : Space :=
  { name := some "Living 1", longName := none, globalId := some "G5",
    idNum := 5, netFloorArea := none, geom := none }

/-- C8 witness: the concrete space with short name "Living 1" has the
non-empty fallback label "Living 1" in both label families, is
selected by the height rule, and has a truthy `Name`; the concrete
space with an empty `GlobalId` realises the empty-label exception. -/
theorem C8_witness :
    CheckerOccupancy.get_space_label spNamedLiving ≠ ""
    ∧ CheckerOccupancy.get_space_label spNamedLiving = "Living 1"
    ∧ CheckerLivingRooms.get_space_name spNamedLiving = "Living 1"
    ∧ Toole._space_label spNamedLiving ≠ ""
    ∧ spEmptyGid.globalId = some ""
    ∧ spNamedLiving ∈ CheckerHeights.get_main_living_areas [spNamedLiving]
    ∧ pyStr spNamedLiving.name ≠ none := by
  have heval : CheckerHeights.get_main_living_areas [spNamedLiving] =
      [spNamedLiving] := by
    unfold CheckerHeights.get_main_living_areas spNamedLiving
    rw [List.filter_cons, if_pos (by decide)]
    rfl
  have hmem : spNamedLiving ∈ CheckerHeights.get_main_living_areas
      [spNamedLiving] := by
    rw [heval]
    exact List.mem_singleton.mpr rfl
  exact ⟨(C8_label_fallback.1 spNamedLiving).1,
    ((C8_label_fallback.2.1 spNamedLiving).2.1 rfl "Living 1" (by decide)).1,
    ((C8_label_fallback.2.1 spNamedLiving).2.1 rfl "Living 1" (by decide)).2,
    (C8_label_fallback.1 spNamedLiving).2.2,
    C8_label_fallback.2.2.1 spEmptyGid (by decide),
    hmem,
    C8_label_fallback.2.2.2 [spNamedLiving] spNamedLiving hmem⟩

/-- C3: the dwelling-area rule emits exactly one record per space (no
classification filter); after the aggregate pass every record's
status is pass iff the summed area reaches `min_area`; on a shortfall
every record carries the same comment stating the total and the
requirement; an empty model yields an empty result collection. -/
theorem C3_dwelling_total_area :
    ∀ (fmt : ℝ → String) (model : List Space) (min_area : ℝ),
      (CheckerDwelling.check_dwelling_area fmt model min_area).length =
        model.length
      ∧ (model = [] →
          CheckerDwelling.check_dwelling_area fmt model min_area = [])
      ∧ (∀ r ∈ CheckerDwelling.check_dwelling_area fmt model min_area,
          (r.check_status = "pass" ↔
            (model.map CheckerDwelling.calculate_space_area).sum ≥ min_area)
          ∧ ((model.map CheckerDwelling.calculate_space_area).sum < min_area →
              r.comment = some ("Total dwelling area " ++
                fmt ((model.map CheckerDwelling.calculate_space_area).sum) ++
                " m² is below required " ++ fmt min_area ++ " m²"))) := by
  intro fmt model min_area
  simp only [CheckerDwelling.check_dwelling_area]
  split
  next h =>
    have hmodel : model = [] := by
      rw [← List.length_eq_zero]
      simpa using h
    subst hmodel
    simp
  next h =>
    refine ⟨by simp, ?_, ?_⟩
    · intro hmodel
      subst hmodel
      simp at h
    · intro r hr
      rcases List.mem_map.mp hr with ⟨r0, _, hupd⟩
      constructor
      · by_cases ht :
          (model.map CheckerDwelling.calculate_space_area).sum ≥ min_area
        · rw [← hupd]
          simp [ht]
        · rw [← hupd]
          simp [ht]
      · intro hlt
        have ht :
            ¬ (model.map CheckerDwelling.calculate_space_area).sum ≥ min_area :=
          not_le.mpr hlt
        rw [← hupd]
        simp [ht]

/-- Record emitted for `spNoGeom` by the failing concrete dwelling
check below (with the trivial formatter). -/
def recDwellFail : CheckResult :=
  { element_id := "G2", element_type := "IfcSpace", element_name := "Office",
    element_name_long := "Office (dwelling area check)",
    check_status := "fail", actual_value := " m²", required_value := " m²",
    comment := some "Total dwelling area  m² is below required  m²",
    log := none }

/-- C3 witness: a one-space model with zero measured area against
`min_area = 36` yields exactly one record, which fails and carries
the aggregate comment. -/
theorem C3_witness :
    (CheckerDwelling.check_dwelling_area (fun _ => "") [spNoGeom] 36).length = 1
    ∧ (recDwellFail.check_status = "pass" ↔
        ([spNoGeom].map CheckerDwelling.calculate_space_area).sum ≥ 36)
    ∧ recDwellFail.comment =
        some "Total dwelling area  m² is below required  m²" := by
  have harea : CheckerDwelling.calculate_space_area spNoGeom = 0 := rfl
  have heval : CheckerDwelling.check_dwelling_area (fun _ => "") [spNoGeom] 36 =
      [recDwellFail] := by
    simp only [CheckerDwelling.check_dwelling_area, List.map_cons, List.map_nil,
      harea, List.sum_cons, List.sum_nil]
    rw [if_neg (by simp), if_neg (by norm_num)]
    simp [recDwellFail, CheckerDwelling.dwellingSpaceName,
      CheckerDwelling.spaceIdOf, spNoGeom, pyStr]
  have h := C3_dwelling_total_area (fun _ => "") [spNoGeom] 36
  have hmem : recDwellFail ∈
      CheckerDwelling.check_dwelling_area (fun _ => "") [spNoGeom] 36 := by
    rw [heval]
    exact List.mem_singleton.mpr rfl
  refine ⟨h.1, (h.2.2 recDwellFail hmem).1, ?_⟩
  have hc := (h.2.2 recDwellFail hmem).2 (by simp [harea])
  simpa using hc

theorem serviceLoop_skip_all (fmt : ℝ → String) (min_height : ℝ) :
    ∀ (spaces : List Space) (rh : List (String × ℝ)) (checked : List String),
      (∀ s ∈ spaces, CheckerServiceSpaces.is_service_space
        (pyLower (CheckerServiceSpaces.get_space_name s)) = false) →
      Toold.serviceLoop fmt min_height spaces rh checked =
        Toold.serviceLoop fmt min_height [] rh checked := by
  intro spaces
  induction spaces with
  | nil => intro rh checked _; rfl
  | cons s rest ih =>
    intro rh checked h
    have hs := h s (List.mem_cons_self s rest)
    simp only [Toold.serviceLoop, hs]
    exact ih rh checked (fun x hx => h x (List.mem_cons_of_mem s hx))

/-- C7: on a model with no service-keyword space, the list-returning
checker returns an empty collection while the single-shot tool
variant returns an explicit aggregate failure with the no-matches
reason. -/
theorem C7_no_service_spaces :
    ∀ (fmt : ℝ → String) (model : List Space) (min_height : ℝ),
      (∀ s ∈ model, CheckerServiceSpaces.is_service_space
        (pyLower (CheckerServiceSpaces.get_space_name s)) = false) →
      CheckerServiceSpaces.check_service_spaces_min_height fmt model
        min_height = []
      ∧ (Toold.service_spaces_min_height_check fmt model min_height).result =
          "fail"
      ∧ (Toold.service_spaces_min_height_check fmt model min_height).reason =
          "No bathrooms/kitchens/hallways matched by keywords, nothing checked" := by
  intro fmt model min_height h
  refine ⟨?_, ?_⟩
  · unfold CheckerServiceSpaces.check_service_spaces_min_height
    rw [List.filterMap_eq_nil_iff]
    intro s hs
    simp [h s hs]
  · have hloop := serviceLoop_skip_all fmt min_height model [] [] h
    unfold Toold.service_spaces_min_height_check
    rw [hloop]
    exact ⟨rfl, rfl⟩

/-- C7 witness: a one-space model labelled "Living 1" (no service
keyword) gives the empty list from the checker and the explicit
no-matches failure from the tool variant. -/
theorem C7_witness :
    CheckerServiceSpaces.check_service_spaces_min_height (fun _ => "")
      [spNamedLiving] 2.2 = []
    ∧ (Toold.service_spaces_min_height_check (fun _ => "")
        [spNamedLiving] 2.2).result = "fail"
    ∧ (Toold.service_spaces_min_height_check (fun _ => "")
        [spNamedLiving] 2.2).reason =
        "No bathrooms/kitchens/hallways matched by keywords, nothing checked" :=
  C7_no_service_spaces (fun _ => "") [spNamedLiving] 2.2
    (by
      intro s hs
      rw [List.mem_singleton.mp hs]
      decide)

/-- Example studio-labelled space with failed geometry (area 0). -/
def spStudio : Space :=
  { name := some "Studio", longName := none, globalId := some "G6", idNum := 6,
    netFloorArea := none, geom := none }

/-- C4 counterexample: on a one-space model labelled "Studio" with
measured area 0 the tool variant reports `pass` although the capped
occupancy is 0 (so pass is not equivalent to capped occupancy > 0),
and on a model with no habitable space the checker variant returns an
empty collection instead of an explicit failure. -/
theorem C4_counterexample :
    (Toole.bedroom_occupancy_check (fun _ => "") [spStudio]).result = "pass"
    ∧ (Toole.bedroom_occupancy_check (fun _ => "")
        [spStudio]).total_allowed_people = 0
    ∧ CheckerOccupancy.check_bedroom_occupancy (fun _ => "") [spNoGeom] = [] := by
  have hb : Toole._get_spaces_by_keywords [spStudio]
      CheckerOccupancy.bedroom_keywords = [] := rfl
  have hl : Toole._get_spaces_by_keywords [spStudio]
      CheckerOccupancy.living_keywords = [spStudio] := rfl
  have hb2 : CheckerOccupancy.get_spaces_by_keywords [spNoGeom]
      CheckerOccupancy.bedroom_keywords = [] := rfl
  have hl2 : CheckerOccupancy.get_spaces_by_keywords [spNoGeom]
      CheckerOccupancy.living_keywords = [] := rfl
  have harea : Toole._calculate_space_area spStudio = 0 := rfl
  have hocc : Toole._area_to_occupancy 0 = 0 := by
    unfold Toole._area_to_occupancy
    rw [if_pos (by norm_num)]
  refine ⟨?_, ?_, ?_⟩
  · simp [Toole.bedroom_occupancy_check, hb, hl]
  · simp [Toole.bedroom_occupancy_check, hb, hl, harea, hocc]
  · simp [CheckerOccupancy.check_bedroom_occupancy, hb2, hl2]

/-- C4 amended: with no bedroom-keyword space, both implementations
evaluate the first living/studio-keyword space in model order with
occupancy capped at 2, but they diverge exactly as follows: the
checker variant emits one record whose status is pass iff the capped
occupancy is positive, and returns an empty collection when no
living/studio space exists; the tool variant reports pass
unconditionally (even for capped occupancy 0) when a living/studio
space exists, and returns the explicit failure "No habitable space
identified" when none does. -/
theorem C4_bedroom_fallback_variants :
    ∀ (fmt : ℝ → String) (model : List Space),
      (∀ (sp : Space) (rest : List Space),
        CheckerOccupancy.get_spaces_by_keywords model
          CheckerOccupancy.bedroom_keywords = [] →
        CheckerOccupancy.get_spaces_by_keywords model
          CheckerOccupancy.living_keywords = sp :: rest →
        (CheckerOccupancy.check_bedroom_occupancy fmt model).length = 1
        ∧ ∀ r ∈ CheckerOccupancy.check_bedroom_occupancy fmt model,
            (r.check_status = "pass" ↔
              0 < min (CheckerOccupancy.area_to_occupancy
                (CheckerOccupancy.calculate_space_area sp)) 2))
      ∧ (CheckerOccupancy.get_spaces_by_keywords model
          CheckerOccupancy.bedroom_keywords = [] →
        CheckerOccupancy.get_spaces_by_keywords model
          CheckerOccupancy.living_keywords = [] →
        CheckerOccupancy.check_bedroom_occupancy fmt model = [])
      ∧ (∀ (sp : Space) (rest : List Space),
        Toole._get_spaces_by_keywords model
          CheckerOccupancy.bedroom_keywords = [] →
        Toole._get_spaces_by_keywords model
          CheckerOccupancy.living_keywords = sp :: rest →
        (Toole.bedroom_occupancy_check fmt model).result = "pass"
        ∧ (Toole.bedroom_occupancy_check fmt model).total_allowed_people =
            min (Toole._area_to_occupancy (Toole._calculate_space_area sp)) 2)
      ∧ (Toole._get_spaces_by_keywords model
          CheckerOccupancy.bedroom_keywords = [] →
        Toole._get_spaces_by_keywords model
          CheckerOccupancy.living_keywords = [] →
        (Toole.bedroom_occupancy_check fmt model).result = "fail"
        ∧ (Toole.bedroom_occupancy_check fmt model).reason =
            "No habitable space identified") := by
  intro fmt model
  refine ⟨?_, ?_, ?_, ?_⟩
  · intro sp rest hb hl
    constructor
    · simp [CheckerOccupancy.check_bedroom_occupancy, hb, hl]
    · intro r hr
      simp only [CheckerOccupancy.check_bedroom_occupancy, hb, hl,
        List.length_nil, if_pos] at hr
      simp only [List.mem_singleton] at hr
      subst hr
      by_cases hocc : 0 < min (CheckerOccupancy.area_to_occupancy
          (CheckerOccupancy.calculate_space_area sp)) 2
      · simp [hocc]
      · simp [hocc]
  · intro hb hl
    simp [CheckerOccupancy.check_bedroom_occupancy, hb, hl]
  · intro sp rest hb hl
    constructor
    · simp [Toole.bedroom_occupancy_check, hb, hl]
    · simp [Toole.bedroom_occupancy_check, hb, hl]
  · intro hb hl
    exact ⟨by simp [Toole.bedroom_occupancy_check, hb, hl],
      by simp [Toole.bedroom_occupancy_check, hb, hl]⟩

/-- C4 witness: concrete models exercising all four branches of the
amended claim. -/
theorem C4_witness :
    (CheckerOccupancy.check_bedroom_occupancy (fun _ => "")
      [spStudio]).length = 1
    ∧ CheckerOccupancy.check_bedroom_occupancy (fun _ => "") [spNoGeom] = []
    ∧ (Toole.bedroom_occupancy_check (fun _ => "") [spStudio]).result = "pass"
    ∧ (Toole.bedroom_occupancy_check (fun _ => "") [spNoGeom]).result = "fail"
    ∧ (Toole.bedroom_occupancy_check (fun _ => "") [spNoGeom]).reason =
        "No habitable space identified" := by
  have h1 := C4_bedroom_fallback_variants (fun _ => "") [spStudio]
  have h2 := C4_bedroom_fallback_variants (fun _ => "") [spNoGeom]
  exact ⟨(h1.1 spStudio [] rfl rfl).1, h2.2.1 rfl rfl,
    (h1.2.2.1 spStudio [] rfl rfl).1, (h2.2.2.2 rfl rfl).1,
    (h2.2.2.2 rfl rfl).2⟩

theorem filterMap_singleton_append {α β : Type} (f : α → Option β) (x : α)
    (l : List α) :
    List.filterMap f (x :: l) = List.filterMap f [x] ++ List.filterMap f l := by
  cases h : f x <;> simp [List.filterMap_cons, h]

theorem filterMap_eq_flatten_map {α β : Type} (f : α → Option β) (l : List α) :
    List.filterMap f l = (l.map (fun x => List.filterMap f [x])).flatten := by
  induction l with
  | nil => rfl
  | cons x rest ih =>
    rw [filterMap_singleton_append f x rest, List.map_cons, List.flatten_cons, ih]

/-- C5: the living-room rule evaluates exactly the spaces with a
strictly positive computed area whose lowered label contains
`living` (zero-area matches are skipped); the required area is 14.0
with `kitchen` in the label else 10.0; the verdict is pass iff the
area meets the requirement and the 2.4×2.4 clearance proxy; on
failure the comment joins exactly the violated condition strings with
`"; "`; the toolc variant agrees on the verdict and reports
`"Complies"` on pass. -/
theorem C5_living_room_rule :
    ∀ (fmt : ℝ → String) (s : Space),
      (∀ x w d : ℝ, CheckerLivingRooms.can_fit_square x w d = true ↔ x ≥ w * d)
      ∧ (CheckerLivingRooms.calculate_space_area s ≤ 0 →
          CheckerLivingRooms.check_living_room_compliance fmt [s] = []
          ∧ Toolc.living_room_compliance fmt [s] = [])
      ∧ (strContains (pyLower (CheckerLivingRooms.get_space_name s))
            "living" = false →
          CheckerLivingRooms.check_living_room_compliance fmt [s] = []
          ∧ Toolc.living_room_compliance fmt [s] = [])
      ∧ (0 < CheckerLivingRooms.calculate_space_area s →
         strContains (pyLower (CheckerLivingRooms.get_space_name s))
            "living" = true →
          CheckerLivingRooms.check_living_room_compliance fmt [s] =
            [CheckerLivingRooms.livingRecord fmt s]
          ∧ Toolc.living_room_compliance fmt [s] = [Toolc.livingResult fmt s]
          ∧ ((CheckerLivingRooms.livingRecord fmt s).check_status = "pass" ↔
              (CheckerLivingRooms.calculate_space_area s ≥
                  (if strContains (pyLower (CheckerLivingRooms.get_space_name s))
                      "kitchen" then (14.0 : ℝ) else 10.0)
                ∧ CheckerLivingRooms.calculate_space_area s ≥ 2.4 * 2.4))
          ∧ (Toolc.livingResult fmt s).result =
              (CheckerLivingRooms.livingRecord fmt s).check_status
          ∧ ((CheckerLivingRooms.livingRecord fmt s).check_status = "pass" →
              (CheckerLivingRooms.livingRecord fmt s).comment = none
              ∧ (Toolc.livingResult fmt s).reason = "Complies")
          ∧ ((CheckerLivingRooms.livingRecord fmt s).check_status = "fail" →
              (CheckerLivingRooms.livingRecord fmt s).comment =
                some (String.intercalate "; "
                  ((if CheckerLivingRooms.calculate_space_area s <
                      (if strContains
                          (pyLower (CheckerLivingRooms.get_space_name s))
                          "kitchen" then (14.0 : ℝ) else 10.0)
                    then [CheckerLivingRooms.areaMsg fmt
                        (CheckerLivingRooms.calculate_space_area s)
                        (if strContains
                            (pyLower (CheckerLivingRooms.get_space_name s))
                            "kitchen" then (14.0 : ℝ) else 10.0)]
                    else [])
                   ++ (if CheckerLivingRooms.calculate_space_area s ≥ 2.4 * 2.4
                       then [] else [CheckerLivingRooms.clearanceMsg])))
              ∧ (Toolc.livingResult fmt s).reason =
                  String.intercalate "; "
                  ((if CheckerLivingRooms.calculate_space_area s <
                      (if strContains
                          (pyLower (CheckerLivingRooms.get_space_name s))
                          "kitchen" then (14.0 : ℝ) else 10.0)
                    then [CheckerLivingRooms.areaMsg fmt
                        (CheckerLivingRooms.calculate_space_area s)
                        (if strContains
                            (pyLower (CheckerLivingRooms.get_space_name s))
                            "kitchen" then (14.0 : ℝ) else 10.0)]
                    else [])
                   ++ (if CheckerLivingRooms.calculate_space_area s ≥ 2.4 * 2.4
                       then [] else [CheckerLivingRooms.clearanceMsg]))))
      ∧ (∀ model : List Space,
          CheckerLivingRooms.check_living_room_compliance fmt model =
            (model.map (fun x =>
              CheckerLivingRooms.check_living_room_compliance fmt [x])).flatten) := by
  intro fmt s
  refine ⟨?_, ?_, ?_, ?_, ?_⟩
  · intro x w d
    simp [CheckerLivingRooms.can_fit_square]
  · intro h0
    exact ⟨by simp [CheckerLivingRooms.check_living_room_compliance, h0],
           by simp [Toolc.living_room_compliance, h0]⟩
  · intro h1
    by_cases h0 : CheckerLivingRooms.calculate_space_area s ≤ 0
    · exact ⟨by simp [CheckerLivingRooms.check_living_room_compliance, h0],
             by simp [Toolc.living_room_compliance, h0]⟩
    · exact ⟨by simp [CheckerLivingRooms.check_living_room_compliance, h0, h1],
             by simp [Toolc.living_room_compliance, h0, h1]⟩
  · intro hpos hliv
    have h0 : ¬ CheckerLivingRooms.calculate_space_area s ≤ 0 := not_le.mpr hpos
    refine ⟨by simp [CheckerLivingRooms.check_living_room_compliance, h0, hliv],
            by simp [Toolc.living_room_compliance, h0, hliv], ?_, rfl, ?_, ?_⟩
    · by_cases hA : CheckerLivingRooms.calculate_space_area s ≥
          (if strContains (pyLower (CheckerLivingRooms.get_space_name s))
              "kitchen" then (14.0 : ℝ) else 10.0)
      · by_cases hC : CheckerLivingRooms.calculate_space_area s ≥ 2.4 * 2.4
        · simp [CheckerLivingRooms.livingRecord,
            CheckerLivingRooms.can_fit_square, hA, hC]
        · simp [CheckerLivingRooms.livingRecord,
            CheckerLivingRooms.can_fit_square, hA, hC]
      · simp [CheckerLivingRooms.livingRecord,
          CheckerLivingRooms.can_fit_square, hA]
    · intro hpass
      by_cases hA : CheckerLivingRooms.calculate_space_area s ≥
          (if strContains (pyLower (CheckerLivingRooms.get_space_name s))
              "kitchen" then (14.0 : ℝ) else 10.0)
      · by_cases hC : CheckerLivingRooms.calculate_space_area s ≥ 2.4 * 2.4
        · constructor
          · simp [CheckerLivingRooms.livingRecord,
              CheckerLivingRooms.can_fit_square, hA, hC, not_lt.mpr hA]
          · simp [Toolc.livingResult,
              CheckerLivingRooms.can_fit_square, hA, hC, not_lt.mpr hA]
        · exfalso
          simp [CheckerLivingRooms.livingRecord,
            CheckerLivingRooms.can_fit_square, hA, hC] at hpass
      · exfalso
        simp [CheckerLivingRooms.livingRecord,
          CheckerLivingRooms.can_fit_square, hA] at hpass
    · intro hfail
      by_cases hA : CheckerLivingRooms.calculate_space_area s ≥
          (if strContains (pyLower (CheckerLivingRooms.get_space_name s))
              "kitchen" then (14.0 : ℝ) else 10.0)
      · by_cases hC : CheckerLivingRooms.calculate_space_area s ≥ 2.4 * 2.4
        · exfalso
          simp [CheckerLivingRooms.livingRecord,
            CheckerLivingRooms.can_fit_square, hA, hC] at hfail
        · constructor
          · simp [CheckerLivingRooms.livingRecord,
              CheckerLivingRooms.can_fit_square, hA, hC, not_lt.mpr hA]
          · simp [Toolc.livingResult,
              CheckerLivingRooms.can_fit_square, hA, hC, not_lt.mpr hA]
      · have hAlt : CheckerLivingRooms.calculate_space_area s <
            (if strContains (pyLower (CheckerLivingRooms.get_space_name s))
                "kitchen" then (14.0 : ℝ) else 10.0) := not_le.mp hA
        by_cases hC : CheckerLivingRooms.calculate_space_area s ≥ 2.4 * 2.4
        · constructor
          · simp [CheckerLivingRooms.livingRecord,
              CheckerLivingRooms.can_fit_square, hA, hC, hAlt]
          · simp [Toolc.livingResult,
              CheckerLivingRooms.can_fit_square, hA, hC, hAlt]
        · constructor
          · simp [CheckerLivingRooms.livingRecord,
              CheckerLivingRooms.can_fit_square, hA, hC, hAlt]
          · simp [Toolc.livingResult,
              CheckerLivingRooms.can_fit_square, hA, hC, hAlt]
  · intro model
    unfold CheckerLivingRooms.check_living_room_compliance
    exact filterMap_eq_flatten_map _ model

/-- Example living room with authoritative area 12 (passes the rule). -/
def spLiving12 : Space :=
  { name := some "Living Room", longName := none, globalId := some "G7",
    idNum := 7, netFloorArea := some 12, geom := none }

/-- Example living room with authoritative area 9 (fails the area
minimum but satisfies the 5.76 clearance proxy). -/
def spLiving9 : Space :=
  { name := some "Living Room", longName := none, globalId := some "G8",
    idNum := 8, netFloorArea := some 9, geom := none }

theorem spLiving12_area :
    CheckerLivingRooms.calculate_space_area spLiving12 = 12 := by
  simp [CheckerLivingRooms.calculate_space_area, spLiving12]

theorem spLiving9_area :
    CheckerLivingRooms.calculate_space_area spLiving9 = 9 := by
  simp [CheckerLivingRooms.calculate_space_area, spLiving9]

theorem spLiving9_fail :
    (CheckerLivingRooms.livingRecord (fun _ => "") spLiving9).check_status =
      "fail" := by
  have h910 : ¬ ((9 : ℝ) ≥ if strContains (pyLower
      (CheckerLivingRooms.get_space_name spLiving9)) "kitchen"
      then (14.0 : ℝ) else 10.0) := by
    rw [if_neg (by decide)]
    norm_num
  simp [CheckerLivingRooms.livingRecord, spLiving9_area, h910]

/-- C5 witness: the pass, fail and skip branches at concrete spaces:
area 12 passes with no comment ("Complies" in the toolc shape), area
9 fails with the joined area-violation comment, and a zero-area space
is skipped. -/
theorem C5_witness :
    CheckerLivingRooms.check_living_room_compliance (fun _ => "")
      [spLiving12] = [CheckerLivingRooms.livingRecord (fun _ => "") spLiving12]
    ∧ (CheckerLivingRooms.livingRecord (fun _ => "") spLiving12).check_status =
        "pass"
    ∧ (CheckerLivingRooms.livingRecord (fun _ => "") spLiving12).comment = none
    ∧ (Toolc.livingResult (fun _ => "") spLiving12).reason = "Complies"
    ∧ (CheckerLivingRooms.livingRecord (fun _ => "") spLiving9).comment =
        some "Area  m² < required  m²"
    ∧ CheckerLivingRooms.check_living_room_compliance (fun _ => "")
        [spEmptyMesh] = [] := by
  have h12 := C5_living_room_rule (fun _ => "") spLiving12
  have h9 := C5_living_room_rule (fun _ => "") spLiving9
  have hE := C5_living_room_rule (fun _ => "") spEmptyMesh
  have hpos12 : 0 < CheckerLivingRooms.calculate_space_area spLiving12 := by
    rw [spLiving12_area]; norm_num
  have hliv12 : strContains (pyLower
      (CheckerLivingRooms.get_space_name spLiving12)) "living" = true := by
    decide
  have hmain12 := h12.2.2.2.1 hpos12 hliv12
  have hpass12 : (CheckerLivingRooms.livingRecord (fun _ => "")
      spLiving12).check_status = "pass" := by
    refine hmain12.2.2.1.mpr ⟨?_, ?_⟩
    · rw [if_neg (by decide), spLiving12_area]
      norm_num
    · rw [spLiving12_area]
      norm_num
  have hpos9 : 0 < CheckerLivingRooms.calculate_space_area spLiving9 := by
    rw [spLiving9_area]; norm_num
  have hliv9 : strContains (pyLower
      (CheckerLivingRooms.get_space_name spLiving9)) "living" = true := by
    decide
  have hmain9 := h9.2.2.2.1 hpos9 hliv9
  have hcomm9 := (hmain9.2.2.2.2.2 spLiving9_fail).1
  have hareaE : CheckerLivingRooms.calculate_space_area spEmptyMesh ≤ 0 := by
    have : CheckerLivingRooms.calculate_space_area spEmptyMesh = 0 := rfl
    rw [this]
  refine ⟨hmain12.1, hpass12, (hmain12.2.2.2.2.1 hpass12).1,
    (hmain12.2.2.2.2.1 hpass12).2, ?_, (hE.2.1 hareaE).1⟩
  have hlt9 : CheckerLivingRooms.calculate_space_area spLiving9 <
      (if strContains (pyLower (CheckerLivingRooms.get_space_name spLiving9))
        "kitchen" then (14.0 : ℝ) else 10.0) := by
    rw [if_neg (by decide), spLiving9_area]
    norm_num
  have hge9 : CheckerLivingRooms.calculate_space_area spLiving9 ≥ 2.4 * 2.4 := by
    rw [spLiving9_area]
    norm_num
  rw [hcomm9, if_pos hlt9, if_pos hge9]
  rfl

/-- C10: the clearance proxy (area ≥ 2.4×2.4 = 5.76) can only fail
when the area minimum (10.0, or 14.0 for living+kitchen) also fails,
because both thresholds exceed 5.76; hence the clearance check never
turns an otherwise-passing space into a failure, and a failure
comment always contains the area-violation message (it never
consists solely of the clearance reason). -/
theorem C10_clearance_redundant :
    (∀ area : ℝ, CheckerLivingRooms.can_fit_square area 2.4 2.4 = false →
      area < 10.0 ∧ area < 14.0)
    ∧ (∀ area req : ℝ, req = 10.0 ∨ req = 14.0 → area ≥ req →
        CheckerLivingRooms.can_fit_square area 2.4 2.4 = true)
    ∧ (∀ (fmt : ℝ → String) (model : List Space) (r : CheckResult),
        r ∈ CheckerLivingRooms.check_living_room_compliance fmt model →
        r.check_status = "fail" →
        ∃ a m : ℝ, r.comment = some (String.intercalate "; "
          (CheckerLivingRooms.areaMsg fmt a m ::
            (if CheckerLivingRooms.can_fit_square a 2.4 2.4 = true then []
             else [CheckerLivingRooms.clearanceMsg])))) := by
  refine ⟨?_, ?_, ?_⟩
  · intro area h
    have h' : ¬ (area ≥ 2.4 * 2.4) := by
      simpa [CheckerLivingRooms.can_fit_square] using h
    have hlt : area < 2.4 * 2.4 := not_le.mp h'
    constructor <;> nlinarith
  · intro area req hreq h
    rcases hreq with rfl | rfl <;>
      (simp [CheckerLivingRooms.can_fit_square]; nlinarith)
  · intro fmt model r hr hfail
    rcases List.mem_filterMap.mp hr with ⟨s, _, hbody⟩
    by_cases h0 : CheckerLivingRooms.calculate_space_area s ≤ 0
    · simp [h0] at hbody
    · by_cases h1 : strContains (pyLower
          (CheckerLivingRooms.get_space_name s)) "living" = true
      · simp only [h0, if_false, h1, if_true] at hbody
        have hbody' : r = CheckerLivingRooms.livingRecord fmt s :=
          (Option.some.inj hbody).symm
        subst hbody'
        refine ⟨CheckerLivingRooms.calculate_space_area s,
          (if strContains (pyLower (CheckerLivingRooms.get_space_name s))
            "kitchen" then (14.0 : ℝ) else 10.0), ?_⟩
        by_cases hA : CheckerLivingRooms.calculate_space_area s ≥
            (if strContains (pyLower (CheckerLivingRooms.get_space_name s))
              "kitchen" then (14.0 : ℝ) else 10.0)
        · by_cases hC : CheckerLivingRooms.can_fit_square
              (CheckerLivingRooms.calculate_space_area s) 2.4 2.4 = true
          · exfalso
            simp [CheckerLivingRooms.livingRecord, hA, hC] at hfail
          · exfalso
            have hC' : CheckerLivingRooms.calculate_space_area s < 2.4 * 2.4 := by
              have := (Bool.not_eq_true _).symm ▸ hC
              simp [CheckerLivingRooms.can_fit_square] at this
              exact this
            by_cases hk : strContains (pyLower
                (CheckerLivingRooms.get_space_name s)) "kitchen" = true
            · rw [if_pos hk] at hA
              nlinarith
            · rw [if_neg hk] at hA
              nlinarith
        · have hAlt : CheckerLivingRooms.calculate_space_area s <
              (if strContains (pyLower (CheckerLivingRooms.get_space_name s))
                "kitchen" then (14.0 : ℝ) else 10.0) := not_le.mp hA
          simp [CheckerLivingRooms.livingRecord, hAlt, hA]
      · simp [h0, h1] at hbody

/-- C10 witness: at concrete inputs, a 3 m² space that fails the
clearance proxy also misses both area minima, a 12 m² space passing
the 10 m² minimum automatically satisfies the clearance proxy, and
the failing record of the concrete 9 m² living room carries a comment
headed by the area-violation message. -/
theorem C10_witness :
    ((3 : ℝ) < 10.0 ∧ (3 : ℝ) < 14.0)
    ∧ CheckerLivingRooms.can_fit_square 12 2.4 2.4 = true
    ∧ (∃ a m : ℝ,
        (CheckerLivingRooms.livingRecord (fun _ => "") spLiving9).comment =
          some (String.intercalate "; "
            (CheckerLivingRooms.areaMsg (fun _ => "") a m ::
              (if CheckerLivingRooms.can_fit_square a 2.4 2.4 = true then []
               else [CheckerLivingRooms.clearanceMsg])))) := by
  have hfit : CheckerLivingRooms.can_fit_square 3 2.4 2.4 = false := by
    simp [CheckerLivingRooms.can_fit_square]
    norm_num
  have hmem : CheckerLivingRooms.livingRecord (fun _ => "") spLiving9 ∈
      CheckerLivingRooms.check_living_room_compliance (fun _ => "")
        [spLiving9] := by
    have h0 : ¬ CheckerLivingRooms.calculate_space_area spLiving9 ≤ 0 := by
      rw [spLiving9_area]
      norm_num
    simp [CheckerLivingRooms.check_living_room_compliance, h0]
    exact ⟨by rw [spLiving9_area]; norm_num, by decide⟩
  exact ⟨C10_clearance_redundant.1 3 hfit,
    C10_clearance_redundant.2.1 12 10.0 (Or.inl rfl) (by norm_num),
    C10_clearance_redundant.2.2 (fun _ => "") [spLiving9]
      (CheckerLivingRooms.livingRecord (fun _ => "") spLiving9) hmem
      spLiving9_fail⟩
